import Mathlib

/-!
Shallow embedding of pyomicron's `omicron/parameters.py` (the parameter-file
Builder `generate_parameters_files` and the Validator `validate_parameters`),
together with theorems settling the specification claims about them.

Python dictionaries are modelled as association lists over `String` keys;
dict update replaces the value of the first occurrence of a key in place
(Python dicts never hold duplicate keys, so `Nodup` hypotheses appear where a
lemma needs them).  Machine floats in the Validator are modelled exactly over
`ℚ`, with `math.ceil(math.log x / math.log 2)` rendered as the exact
base-2 ceiling logarithm.
-/

set_option maxHeartbeats 1000000
set_option maxRecDepth 10000

deriving instance DecidableEq for Except

namespace PyOmicron

/-- Python `d[k]` lookup on an association list: first binding of `k` wins. -/
def dlookup {α : Type} : List (String × α) → String → Option α
  | [], _ => none
  | (k1, v) :: t, k => if k1 = k then some v else dlookup t k

/-- Python `d[k] = v`: replace the value at the first binding of `k`, or append
a new binding at the end (Python dicts keep insertion order on update). -/
def dset {α : Type} : List (String × α) → String → α → List (String × α)
  | [], k, v => [(k, v)]
  | (k1, v1) :: t, k, v => if k1 = k then (k1, v) :: t else (k1, v1) :: dset t k v

/-- Python `d.pop(k, None)` (discarding the value): remove the first binding of
`k` if present. -/
def dremove {α : Type} : List (String × α) → String → List (String × α)
  | [], _ => []
  | (k1, v1) :: t, k => if k1 = k then t else (k1, v1) :: dremove t k

/-- Python `d.pop(k)`: return the value at `k` and the dictionary without it,
or `none` when `k` is absent (a `KeyError` in Python). -/
def dpop {α : Type} (d : List (String × α)) (k : String) :
    Option (α × List (String × α)) :=
  match dlookup d k with
  | none => none
  | some v => some (v, dremove d k)

/-- Python `d.setdefault(k, v)`: insert `v` at `k` only when `k` is absent. -/
def dsetdefault {α : Type} (d : List (String × α)) (k : String) (v : α) :
    List (String × α) :=
  match dlookup d k with
  | some _ => d
  | none => dset d k v

theorem dlookup_dset_self {α : Type} (d : List (String × α)) (k : String) (v : α) :
    dlookup (dset d k v) k = some v := by
  induction d with
  | nil => simp [dset, dlookup]
  | cons hd t ih =>
    obtain ⟨k1, v1⟩ := hd
    by_cases h : k1 = k
    · simp [dset, h, dlookup]
    · simp [dset, h, dlookup, ih]

theorem dlookup_dset_ne {α : Type} (d : List (String × α)) {k k' : String} (v : α)
    (h : k' ≠ k) : dlookup (dset d k v) k' = dlookup d k' := by
  induction d with
  | nil =>
    simp only [dset, dlookup]
    rw [if_neg (Ne.symm h)]
  | cons hd t ih =>
    obtain ⟨k1, v1⟩ := hd
    by_cases hk : k1 = k
    · subst hk
      simp only [dset, if_pos rfl, dlookup]
      rw [if_neg (Ne.symm h), if_neg (Ne.symm h)]
    · simp only [dset, if_neg hk, dlookup]
      by_cases hk2 : k1 = k'
      · simp [hk2]
      · simp [hk2, ih]

theorem dlookup_dremove_ne {α : Type} (d : List (String × α)) {k k' : String}
    (h : k' ≠ k) : dlookup (dremove d k) k' = dlookup d k' := by
  induction d with
  | nil => simp [dremove]
  | cons hd t ih =>
    obtain ⟨k1, v1⟩ := hd
    by_cases hk : k1 = k
    · subst hk
      have hre : dremove ((k1, v1) :: t) k1 = t := by simp [dremove]
      rw [hre]
      simp only [dlookup]
      rw [if_neg (Ne.symm h)]
    · simp only [dremove, if_neg hk, dlookup]
      by_cases hk2 : k1 = k'
      · simp [hk2]
      · simp [hk2, ih]

theorem dlookup_eq_none_of_not_mem {α : Type} (d : List (String × α)) (k : String)
    (h : k ∉ d.map Prod.fst) : dlookup d k = none := by
  induction d with
  | nil => simp [dlookup]
  | cons hd t ih =>
    obtain ⟨k1, v1⟩ := hd
    simp only [List.map_cons, List.mem_cons] at h
    push_neg at h
    simp only [dlookup]
    rw [if_neg (Ne.symm h.1)]
    exact ih h.2

theorem dlookup_dremove_self {α : Type} (d : List (String × α)) (k : String)
    (hnd : (d.map Prod.fst).Nodup) : dlookup (dremove d k) k = none := by
  induction d with
  | nil => simp [dremove, dlookup]
  | cons hd t ih =>
    obtain ⟨k1, v1⟩ := hd
    simp only [List.map_cons, List.nodup_cons] at hnd
    by_cases hk : k1 = k
    · subst hk
      simp only [dremove, if_pos rfl]
      exact dlookup_eq_none_of_not_mem t k1 hnd.1
    · simp only [dremove, if_neg hk, dlookup, if_neg hk]
      exact ih hnd.2

theorem dremove_fst_sublist {α : Type} (d : List (String × α)) (k : String) :
    ((dremove d k).map Prod.fst).Sublist (d.map Prod.fst) := by
  induction d with
  | nil => simp [dremove]
  | cons hd t ih =>
    obtain ⟨k1, v1⟩ := hd
    by_cases hk : k1 = k
    · simp only [dremove, if_pos hk, List.map_cons]
      exact (List.sublist_cons_self _ _)
    · simp only [dremove, if_neg hk, List.map_cons]
      exact ih.cons₂ k1

theorem nodup_dremove {α : Type} (d : List (String × α)) (k : String)
    (hnd : (d.map Prod.fst).Nodup) : ((dremove d k).map Prod.fst).Nodup :=
  (dremove_fst_sublist d k).nodup hnd

theorem mem_dset_fst {α : Type} (d : List (String × α)) (k : String) (v : α)
    (x : String) (hx : x ∈ (dset d k v).map Prod.fst) :
    x = k ∨ x ∈ d.map Prod.fst := by
  induction d with
  | nil => simpa [dset] using hx
  | cons hd t ih =>
    obtain ⟨k1, v1⟩ := hd
    by_cases hk : k1 = k
    · simp only [dset, if_pos hk, List.map_cons, List.mem_cons] at hx ⊢
      tauto
    · simp only [dset, if_neg hk, List.map_cons, List.mem_cons] at hx ⊢
      rcases hx with h | h
      · tauto
      · rcases ih h with h2 | h2 <;> tauto

theorem nodup_dset {α : Type} (d : List (String × α)) (k : String) (v : α)
    (hnd : (d.map Prod.fst).Nodup) : ((dset d k v).map Prod.fst).Nodup := by
  induction d with
  | nil => simp [dset]
  | cons hd t ih =>
    obtain ⟨k1, v1⟩ := hd
    simp only [List.map_cons, List.nodup_cons] at hnd
    by_cases hk : k1 = k
    · subst hk
      have hs : dset ((k1, v1) :: t) k1 v = (k1, v) :: t := by simp [dset]
      rw [hs]
      simp only [List.map_cons, List.nodup_cons]
      exact ⟨hnd.1, hnd.2⟩
    · simp only [dset, if_neg hk, List.map_cons, List.nodup_cons]
      refine ⟨fun hmem => ?_, ih hnd.2⟩
      rcases mem_dset_fst t k v k1 hmem with h | h
      · exact hk h
      · exact hnd.1 h

theorem dlookup_dremove_of_none {α : Type} (d : List (String × α)) (k x : String)
    (h : dlookup d k = none) : dlookup (dremove d x) k = none := by
  induction d with
  | nil => exact h
  | cons hd t ih =>
    obtain ⟨k1, v1⟩ := hd
    simp only [dlookup] at h
    by_cases hk : k1 = k
    · simp [hk] at h
    · rw [if_neg hk] at h
      by_cases hx : k1 = x
      · simpa [dremove, hx] using h
      · simp only [dremove, if_neg hx, dlookup, if_neg hk]
        exact ih h

theorem dlookup_dsetdefault_self {α : Type} (d : List (String × α)) (k : String)
    (v : α) : dlookup (dsetdefault d k v) k = some ((dlookup d k).getD v) := by
  unfold dsetdefault
  cases h : dlookup d k with
  | none => simp [dlookup_dset_self]
  | some w => simp [h]

theorem dlookup_dsetdefault_ne {α : Type} (d : List (String × α))
    {k k' : String} (v : α) (h : k' ≠ k) :
    dlookup (dsetdefault d k v) k' = dlookup d k' := by
  unfold dsetdefault
  cases hh : dlookup d k with
  | none => simp [dlookup_dset_ne d v h]
  | some w => simp

/-- Failure reasons of `validate_parameters`, one constructor per `assert`
message, plus the two uncaught arithmetic exceptions the Python code can hit
(`ZeroDivisionError` from `dchunk % dseg` when `segment == overlap`, and
`ValueError` from `math.log` on a non-positive argument). -/
inductive VErr : Type
  | segGtChunk
  | overlapGtSeg
  | zeroOverlap
  | oddOverlap
  | overlapTooBig
  | tiling (rem : Int)
  | zeroDivision
  | mathDomain
  | freqBound
deriving DecidableEq, Repr

/-- Embedding of `validate_parameters(chunk, segment, overlap)`, the six
duration assertions of lines 190-200.  `%` is `Int.emod`; on the values the
checks can reach it (`dseg > 0`, `dchunk ≥ 0` once checks 1-2 hold, modulus 2)
it agrees with Python's `%`.  Python raises `ZeroDivisionError` when
`segment - overlap = 0`, modelled by the guard before the tiling check. -/
def validateDur (chunk segment overlap : Int) : Except VErr Unit :=
  if segment > chunk then .error .segGtChunk
  else if overlap > segment then .error .overlapGtSeg
  else if overlap = 0 then .error .zeroOverlap
  else if overlap % 2 ≠ 0 then .error .oddOverlap
  else if segment < 2 * overlap then .error .overlapTooBig
  else if segment - overlap = 0 then .error .zeroDivision
  else if (chunk - overlap) % (segment - overlap) ≠ 0 then
    .error (.tiling ((chunk - overlap) % (segment - overlap)))
  else .ok ()

/-- Ceiling base-2 logarithm by repeated halving (fuel-driven so that it is
kernel-reducible); agrees with `Nat.clog 2`, see `clog2_eq_clog`. -/
def clog2F : Nat → Nat → Nat
  | 0, _ => 0
  | f + 1, n => if n ≤ 1 then 0 else clog2F f ((n + 1) / 2) + 1

/-- Ceiling base-2 logarithm: `clog2 n = ⌈log₂ n⌉` for `n ≥ 1`. -/
def clog2 (n : Nat) : Nat := clog2F n n

theorem clog2F_eq_clog : ∀ fuel n, n ≤ fuel + 1 → clog2F fuel n = Nat.clog 2 n := by
  intro fuel
  induction fuel with
  | zero =>
    intro n hn
    rw [clog2F, Nat.clog_of_right_le_one hn]
  | succ f ih =>
    intro n hn
    by_cases h1 : n ≤ 1
    · rw [clog2F, if_pos h1, Nat.clog_of_right_le_one h1]
    · rw [clog2F, if_neg h1]
      push_neg at h1
      rw [Nat.clog_of_two_le (by norm_num) h1]
      have heq : (n + 2 - 1) / 2 = (n + 1) / 2 := by omega
      rw [heq]
      rw [ih ((n + 1) / 2) (by omega)]

theorem clog2_eq_clog (n : Nat) : clog2 n = Nat.clog 2 n :=
  clog2F_eq_clog n n (by omega)

/-- Embedding of the full `validate_parameters(chunk, segment, overlap,
frange, sampling)` including the frequency-resolution check of lines 201-215.
The float expressions are modelled exactly over `ℚ`:
`floor(sampling / frange[0])` is `⌊·⌋` on `ℚ` and
`2 ** ceil(log(x) / log(2.))` is `2 ^ clog2 x` (exact for the magnitudes the
tool is used at).  `math.log` on a non-positive argument raises `ValueError`
(`.mathDomain`); since `x = 10 * floor(...)` is an integer multiple of 10,
that happens exactly when `x ≤ 0`. -/
def validateFull (chunk segment overlap : Int) (frange : Option (ℚ × ℚ))
    (sampling : Option ℚ) : Except VErr Unit :=
  match validateDur chunk segment overlap with
  | .error e => .error e
  | .ok () =>
    match sampling, frange with
    | some smp, some fr =>
      let psdsizeE : Except VErr ℚ :=
        if fr.1 < 1 then
          let x : Int := 10 * ⌊smp / fr.1⌋
          if x ≤ 0 then .error .mathDomain
          else .ok (2 * (2 : ℚ) ^ clog2 x.toNat)
        else .ok (2 * smp)
      match psdsizeE with
      | .error e => .error e
      | .ok psdsize =>
        let chunkp : ℚ := (chunk : ℚ) * smp
        let overlapp : ℚ := (overlap : ℚ) * smp
        if chunkp - overlapp ≥ 2 * psdsize then .ok () else .error .freqBound
    | _, _ => .ok ()

/-- The six checks of claim C2, read as total mathematical statements
(`%` is `Int.emod`, which returns the dividend on a zero modulus). -/
def checksHold (chunk segment overlap : Int) : Prop :=
  segment ≤ chunk ∧ overlap ≤ segment ∧ overlap ≠ 0 ∧ overlap % 2 = 0 ∧
    2 * overlap ≤ segment ∧ (chunk - overlap) % (segment - overlap) = 0

instance (c s o : Int) : Decidable (checksHold c s o) := by
  unfold checksHold
  infer_instance

/-- The claim-side PSD size formula of C6:
`2 * 2^ceil(log2(10 * floor(sampling / frange_low)))` when the low frequency
bound is below 1 Hz, `2 * sampling` otherwise. -/
def psdSpec (smp f0 : ℚ) : ℚ :=
  if f0 < 1 then 2 * (2 : ℚ) ^ clog2 (10 * ⌊smp / f0⌋).toNat else 2 * smp

/-- C2 (counterexample): on `chunk = segment = overlap = -2` all six checks of
the claim hold as mathematical statements (the sixth reads `0 mod 0 = 0`), yet
`validate_parameters` does not succeed: Python evaluates `dchunk % dseg` with
`dseg = 0` and raises an uncaught `ZeroDivisionError`, so success is not
equivalent to the six checks over all integer inputs. -/
theorem validateDur_iff_checks_counterexample :
    ¬ (validateDur (-2) (-2) (-2) = .ok () ↔ checksHold (-2) (-2) (-2)) := by
  decide

/-- C2 (amended): `validate(chunk, segment, overlap)` with sampling and
frequency range omitted succeeds iff the six checks hold and additionally
`segment ≠ overlap` (when checks 1-5 hold but `segment = overlap`, the code
raises `ZeroDivisionError` instead); the checks are evaluated in order and the
first failing check determines the reported reason — each failure reason is
equivalent to "all earlier checks pass and this one fails" — in particular
`validate(9,4,2)` fails the tiling check reporting remainder 1 and
`validate(4,2,2)` fails with the overlap-too-large reason. -/
theorem validateDur_first_failure :
    (∀ c s o : Int, validateDur c s o = .ok () ↔ (checksHold c s o ∧ s ≠ o)) ∧
    (∀ c s o : Int, validateDur c s o = .error .segGtChunk ↔ c < s) ∧
    (∀ c s o : Int, validateDur c s o = .error .overlapGtSeg ↔
      s ≤ c ∧ s < o) ∧
    (∀ c s o : Int, validateDur c s o = .error .zeroOverlap ↔
      s ≤ c ∧ o ≤ s ∧ o = 0) ∧
    (∀ c s o : Int, validateDur c s o = .error .oddOverlap ↔
      s ≤ c ∧ o ≤ s ∧ o ≠ 0 ∧ o % 2 ≠ 0) ∧
    (∀ c s o : Int, validateDur c s o = .error .overlapTooBig ↔
      s ≤ c ∧ o ≤ s ∧ o ≠ 0 ∧ o % 2 = 0 ∧ s < 2 * o) ∧
    (∀ c s o : Int, validateDur c s o = .error .zeroDivision ↔
      s ≤ c ∧ o ≤ s ∧ o ≠ 0 ∧ o % 2 = 0 ∧ 2 * o ≤ s ∧ s = o) ∧
    (∀ c s o r : Int, validateDur c s o = .error (.tiling r) ↔
      s ≤ c ∧ o ≤ s ∧ o ≠ 0 ∧ o % 2 = 0 ∧ 2 * o ≤ s ∧ s ≠ o ∧
        (c - o) % (s - o) ≠ 0 ∧ r = (c - o) % (s - o)) ∧
    validateDur 9 4 2 = .error (.tiling 1) ∧
    validateDur 4 2 2 = .error .overlapTooBig := by
  refine ⟨?_, ?_, ?_, ?_, ?_, ?_, ?_, ?_, by decide, by decide⟩ <;>
    · intro c s o
      try intro r
      simp only [validateDur, checksHold]
      split_ifs <;> simp_all <;> omega

/-- C2 (witness for the amended theorem): `validate(10,4,2)` succeeds, via the
equivalence with the six checks. -/
theorem validateDur_first_failure_witness : validateDur 10 4 2 = .ok () :=
  (validateDur_first_failure.1 10 4 2).mpr (by decide)

/-- C6: when both sampling rate and frequency range are supplied and the six
duration checks pass, `validate` succeeds iff
`(chunk - overlap) * sampling ≥ 2 * psd_size` with
`psd_size = 2 * 2^ceil(log2(10 * floor(sampling / frange_low)))` for
`frange_low < 1` and `psd_size = 2 * sampling` otherwise (the hypothesis
`f0 < 1 → 1 ≤ ⌊smp / f0⌋` keeps the logarithm's argument positive, which is
where the claim's formula is defined at all); when either argument is omitted,
validation is exactly the six duration checks. -/
theorem validateFull_freq_resolution :
    (∀ (c s o : Int) (smp f0 f1 : ℚ),
      validateDur c s o = .ok () →
      (f0 < 1 → 1 ≤ ⌊smp / f0⌋) →
      (validateFull c s o (some (f0, f1)) (some smp) = .ok () ↔
        2 * psdSpec smp f0 ≤ ((c : ℚ) - (o : ℚ)) * smp)) ∧
    (∀ (c s o : Int) (smp : ℚ),
      validateFull c s o none (some smp) = validateDur c s o) ∧
    (∀ (c s o : Int) (fr : Option (ℚ × ℚ)),
      validateFull c s o fr none = validateDur c s o) := by
  refine ⟨?_, ?_, ?_⟩
  · intro c s o smp f0 f1 hok hfl
    by_cases hf : f0 < 1
    · have hx : ¬ (10 * ⌊smp / f0⌋ ≤ 0) := by
        have h1 := hfl hf
        omega
      simp only [validateFull, hok, psdSpec, if_pos hf, if_neg hx, ge_iff_le,
        sub_mul]
      split_ifs with hge
      · simpa using hge
      · simpa using hge
    · simp only [validateFull, hok, psdSpec, if_neg hf, ge_iff_le, sub_mul]
      split_ifs with hge
      · simpa using hge
      · simpa using hge
  · intro c s o smp
    cases h : validateDur c s o with
    | error e => simp [validateFull, h]
    | ok u => cases u; simp [validateFull, h]
  · intro c s o fr
    cases h : validateDur c s o with
    | error e => simp [validateFull, h]
    | ok u =>
      cases u
      cases fr <;> simp [validateFull, h]

/-- C6 (witness): a concrete accepted configuration — chunk 8, segment 4,
overlap 2, frequency range 4-64 Hz, sampling rate 1024 Hz. -/
theorem validateFull_freq_resolution_witness :
    validateFull 8 4 2 (some (4, 64)) (some 1024) = .ok () :=
  (validateFull_freq_resolution.1 8 4 2 1024 4 64 (by decide)
    (fun h => absurd h (by norm_num))).mpr (by norm_num [psdSpec])

/-- C10: the Validator imposes no positivity precondition — with
`chunk = 10, segment = 2, overlap = -2` every assertion passes
(`12 mod 4 = 0`) and `validate` succeeds although the overlap is negative. -/
theorem validateDur_negative_overlap_accepted :
    validateDur 10 2 (-2) = .ok () ∧ ((-2 : Int) < 0) := by
  decide

/-- Value of a Builder parameter: Python passes configuration values as
strings and may pass list values through `**kwargs` (the `isinstance(val,
(list, tuple))` branch of line 158 exists for them). -/
inductive PValue : Type
  | str (s : String)
  | list (xs : List String)
deriving DecidableEq, Repr

/-- Errors `generate_parameters_files` can raise: `configparser.NoOptionError`
from `getfloat` on a missing option, `ValueError` from `getfloat` on an
unparseable value, `KeyError` from `dict.pop`, and `TypeError` from the
malformed `str.flatten` call of line 159. -/
inductive GenError : Type
  | noOption (key : String)
  | valueError
  | keyError (key : String)
  | typeError
deriving DecidableEq, Repr

/-- Configuration section contents, as `dict(config.items(section))`. -/
abbrev Config : Type := List (String × String)

/-- One parameter group (PARAMETER / OUTPUT / DATA). -/
abbrev Group : Type := List (String × PValue)

/-- The three parameter groups.  `DEFAULTS.copy()` at line 114 is a shallow
copy, so the three inner group dicts are shared with the module-level
`DEFAULTS` table and every mutation writes through to it; the model therefore
threads this state into and out of `generate`. -/
structure Params : Type where
  PARAMETER : Group
  OUTPUT : Group
  DATA : Group
deriving DecidableEq, Repr

/-- The compiled-in `DEFAULTS` table (lines 33-45) in its pristine state.
Python renders the numeric literals `2` and `1e7` as `2` and `10000000.0`
when printing, so the values are stored here as those strings. -/
def DEFAULTS0 : Params :=
  { PARAMETER := [("CLUSTERING", .str "TIME")]
    OUTPUT := [("PRODUCTS", .str "triggers"), ("VERBOSITY", .str "2"),
               ("FORMAT", .str "rootxml"), ("NTRIGGERMAX", .str "10000000.0")]
    DATA := [] }

/-- Keys dropped before processing (line 47). -/
def UNUSED_PARAMS : List String :=
  ["state-flag", "frametype", "state-channel", "state-frametype"]

/-- Python `'{0: <N}'.format(s)`: left-justify to minimum width `N`. -/
def padR (s : String) (n : Nat) : String :=
  s ++ String.mk (List.replicate (n - s.length) ' ')

/-- Python `''.flatten(key.split('-')).upper()` (line 130). -/
def okeyOf (key : String) : String :=
  String.mk ((key.data.filter (fun c => c ≠ '-')).map Char.toUpper)

/-- Python `str.split(sep)` on a single-character separator: always returns at
least one piece, and splitting the empty string gives `[""]`. -/
def splitChars (sep : Char) : List Char → List (List Char)
  | [] => [[]]
  | c :: t =>
    match splitChars sep t with
    | h :: r => if c = sep then [] :: h :: r else (c :: h) :: r
    | [] => [[c]]

/-- Python `s.split('\n')`, producing the channel list (line 116). -/
def pySplitLines (s : String) : List String :=
  (splitChars (Char.ofNat 10) s.data).map String.mk

/-- The single quote character, used by Python `str` rendering of lists. -/
def sq : String := String.mk [Char.ofNat 39]

/-- Separator-interleaving concatenation (Python `sep.flatten(xs)`). -/
def joinSep (sep : String) : List String → String
  | [] => ""
  | [x] => x
  | x :: t => x ++ sep ++ joinSep sep t

/-- Python `'%s' % v` rendering of a parameter value. -/
def pyStr : PValue → String
  | .str s => s
  | .list xs => "[" ++ joinSep ", " (xs.map (fun x => sq ++ x ++ sq)) ++ "]"

/-- Digit-string to number, `none` when empty or not all digits. -/
def digitsVal (l : List Char) : Option Nat :=
  if l.isEmpty then none
  else if l.all Char.isDigit then
    some (l.foldl (fun a c => a * 10 + (c.toNat - 48)) 0)
  else none

/-- A parsed decimal value `(-1)^neg * mant / 10^scale`, the exact content of
a plain decimal literal.  Python's `float` holds the nearest binary double,
but `repr` round-trips it to the shortest decimal, which for the short
literals the workflow uses is this exact value. -/
structure Dec : Type where
  neg : Bool
  mant : Nat
  scale : Nat
deriving DecidableEq, Repr

/-- Python `float(s)` restricted to plain decimal literals
(`[+-]?digits[.digits]`), the form the workflow's range options take; anything
else is a `ValueError` (`none`). -/
def pyParseFloat (s : String) : Option Dec :=
  let signAndDigits : Bool × List Char :=
    match s.data with
    | '-' :: t => (true, t)
    | '+' :: t => (false, t)
    | t => (false, t)
  match splitChars '.' signAndDigits.2 with
  | [ip] => (digitsVal ip).map (fun n => ⟨signAndDigits.1, n, 0⟩)
  | [ip, fp] =>
    if ip.isEmpty ∧ fp.isEmpty then none
    else
      match (if ip.isEmpty then some 0 else digitsVal ip),
            (if fp.isEmpty then some 0 else digitsVal fp) with
      | some a, some b =>
        some ⟨signAndDigits.1, a * 10 ^ fp.length + b, fp.length⟩
      | _, _ => none
  | _ => none

/-- Strip trailing decimal zeros: divide the mantissa by 10 while the scale
is positive and the last digit is 0. -/
def canonDec : Nat → Nat → Nat × Nat
  | m, 0 => (m, 0)
  | m, s + 1 => if m % 10 = 0 then canonDec (m / 10) s else (m, s + 1)

/-- Left-pad a digit string with zeros to a given width. -/
def padZeros (s : String) (n : Nat) : String :=
  String.mk (List.replicate (n - s.length) '0') ++ s

/-- Python `repr(float)` (used by `'%s' % f`) on the values this model
produces: integral floats render as `<int>.0`, short decimals as themselves
with trailing zeros stripped (`float("-0")` keeps its sign, as in Python). -/
def pyFloatRepr (d : Dec) : String :=
  let ms : Nat × Nat := canonDec d.mant d.scale
  let ip : Nat := ms.1 / 10 ^ ms.2
  let fp : Nat := ms.1 % 10 ^ ms.2
  (if d.neg then "-" else "") ++ Nat.repr ip ++ "." ++
    (if ms.2 = 0 then "0" else padZeros (Nat.repr fp) ms.2)

/-- Python `config.getfloat(section, key)`: `NoOptionError` when the key is
absent, `ValueError` when the value does not parse as a float. -/
def getfloat (cfg : Config) (key : String) : Except GenError Dec :=
  match dlookup cfg key with
  | none => .error (.noOption key)
  | some v =>
    match pyParseFloat v with
    | none => .error .valueError
    | some q => .ok q

/-- One pass of the LCF-reformat loop body (lines 99-111) for a
`(range_, low_, high_)` triple: when the combined key is absent and the low
key is present, synthesize `"<low> <high>"` from `getfloat` of both bounds
(the `getfloat` on the high key is NOT guarded, so its absence raises
`NoOptionError`); afterwards remove the low/high keys, silently when absent
(the `try/except` of lines 107-111). -/
def reformatRange (cfg : Config) (rangeKey lowKey highKey : String) :
    Except GenError Config :=
  let step1 : Except GenError Config :=
    if dlookup cfg rangeKey = none ∧ dlookup cfg lowKey ≠ none then
      match getfloat cfg lowKey with
      | .error e => .error e
      | .ok ql =>
        match getfloat cfg highKey with
        | .error e => .error e
        | .ok qh =>
          .ok (dset cfg rangeKey (pyFloatRepr ql ++ " " ++ pyFloatRepr qh))
    else .ok cfg
  match step1 with
  | .error e => .error e
  | .ok c1 => .ok (dremove (dremove c1 lowKey) highKey)

/-- The full reformat loop of lines 99-111: frequency range, then q range. -/
def reformatRanges (cfg : Config) : Except GenError Config :=
  match reformatRange cfg "frequency-range" "flow" "fhigh" with
  | .error e => .error e
  | .ok c1 => reformatRange c1 "q-range" "qlow" "qhigh"

/-- Python `d.pop(k)` on the string-valued config dict. -/
def popKey (cfg : Config) (k : String) : Option (String × Config) :=
  match dlookup cfg k with
  | none => none
  | some v => some (v, dremove cfg k)

/-- Group selection by name, for stating which group/attribute a key writes. -/
def getGroup (p : Params) (g : String) : Group :=
  if g = "PARAMETER" then p.PARAMETER
  else if g = "OUTPUT" then p.OUTPUT
  else p.DATA

/-- The group and attribute a config/kwargs key is written to: the
`OMICRON_PARAM_MAP` entry for `sample-frequency` (line 48), otherwise the
PARAMETER group under the hyphen-stripped upper-cased key. -/
def targetOf (key : String) : String × String :=
  if key = "sample-frequency" then ("DATA", "SAMPLEFREQUENCY")
  else ("PARAMETER", okeyOf key)

/-- Lookup of a (group name, attribute) target. -/
def getGA (p : Params) (t : String × String) : Option PValue :=
  dlookup (getGroup p t.1) t.2

/-- Python equality `val in [None, 'None', 'none', '']` of line 131 (a list
value is not equal to any of the sentinels). -/
def isSentinel : PValue → Bool
  | .str s => s = "None" || s = "none" || s = ""
  | .list _ => false

/-- Loop body of lines 124-136 for one key: the mapped key writes into its
mapped group/attribute; an unmapped key with a sentinel value pops any
existing PARAMETER default; otherwise the value is written to the PARAMETER
group under the derived attribute name. -/
def applyParam (p : Params) (key : String) (v : PValue) : Params :=
  if key = "sample-frequency" then
    { p with DATA := dset p.DATA "SAMPLEFREQUENCY" v }
  else if isSentinel v then
    { p with PARAMETER := dremove p.PARAMETER (okeyOf key) }
  else
    { p with PARAMETER := dset p.PARAMETER (okeyOf key) v }

/-- The `for key in d` loop of lines 125-136 over one source dict. -/
def processParams (p : Params) (d : List (String × PValue)) : Params :=
  d.foldl (fun acc kv => applyParam acc kv.1 kv.2) p

/-- Lexicographic (code-point) strict comparison of strings, the semantics of
Python `str` comparison. -/
def ltChars : List Char → List Char → Bool
  | [], [] => false
  | [], _ :: _ => true
  | _ :: _, [] => false
  | a :: as, b :: bs =>
    if a.toNat < b.toNat then true
    else if b.toNat < a.toNat then false
    else ltChars as bs

/-- Modelled from the spec: the comparison `omicron_version >= 'v2r2'` of
line 139 — `utils.OmicronVersion` is not part of this module, and the spec
fixes the comparison to be lexicographic on the version token. -/
def versionLt (a b : String) : Bool := ltChars a.data b.data

/-- Version-conditional restructuring of lines 139-147: with
`omicron_version >= 'v2r2'` (lexicographic), pop CHUNKDURATION into
PSDLENGTH, pop SEGMENTDURATION and OVERLAPDURATION into
`TIMING = "<segment> <overlap>"`, and set FFTPLAN to `FFTW_ESTIMATE` if
absent; a missing key is a `KeyError` naming it (Python mutates the shared
group before raising; the model only reports the error, which no claim
examines further). -/
def restructure (version : String) (par : Group) : Except GenError Group :=
  if versionLt version "v2r2" then .ok par
  else
    match dpop par "CHUNKDURATION" with
    | none => .error (.keyError "CHUNKDURATION")
    | some (cv, par1) =>
      let par2 := dset par1 "PSDLENGTH" cv
      match dpop par2 "SEGMENTDURATION" with
      | none => .error (.keyError "SEGMENTDURATION")
      | some (sv, par3) =>
        match dpop par3 "OVERLAPDURATION" with
        | none => .error (.keyError "OVERLAPDURATION")
        | some (ov, par4) =>
          .ok (dsetdefault
            (dset par4 "TIMING" (.str (pyStr sv ++ " " ++ pyStr ov)))
            "FFTPLAN" (.str "FFTW_ESTIMATE"))

/-- Python line 158-159: `if isinstance(val, (list, tuple)): val = '
'.flatten(val, (list, tuple))` — `str.flatten` takes exactly one argument, so every
list/tuple value raises `TypeError`; a plain string passes through. -/
def formatVal : PValue → Except GenError String
  | .str s => .ok s
  | .list _ => .error .typeError

/-- One `print('{0: <10}'.format(group), '{0: <16}'.format(key), val, ...)`
line of the output file (lines 160-161). -/
def paramLine (gname key val : String) : String :=
  padR gname 10 ++ " " ++ padR key 16 ++ " " ++ val

/-- The lines for the attributes of one group. -/
def groupLinesAux (gname : String) : Group → Except GenError (List String)
  | [] => .ok []
  | (k, v) :: t =>
    match formatVal v with
    | .error e => .error e
    | .ok s =>
      match groupLinesAux gname t with
      | .error e => .error e
      | .ok rest => .ok (paramLine gname k s :: rest)

/-- The lines for one group followed by the blank line of line 162. -/
def groupLines (gname : String) (grp : Group) : Except GenError (List String) :=
  match groupLinesAux gname grp with
  | .error e => .error e
  | .ok ls => .ok (ls ++ [""])

/-- All parameter lines of one file (the `for group in params` loop). -/
def allLines (p : Params) : Except GenError (List String) :=
  match groupLines "PARAMETER" p.PARAMETER with
  | .error e => .error e
  | .ok a =>
    match groupLines "OUTPUT" p.OUTPUT with
    | .error e => .error e
    | .ok b =>
      match groupLines "DATA" p.DATA with
      | .error e => .error e
      | .ok c => .ok (a ++ b ++ c)

/-- One `DATA CHANNELS <channel>` line (lines 163-165). -/
def channelLine (c : String) : String := paramLine "DATA" "CHANNELS" c

/-- The full line list of one parameters file. -/
def fileLines (p : Params) (channels : List String) :
    Except GenError (List String) :=
  match allLines p with
  | .error e => .error e
  | .ok base => .ok (base ++ channels.map channelLine)

/-- The `while i * channellimit < len(channellist)` loop of lines 151-167,
fuel-driven so that it is kernel-reducible; each iteration emits
`(file path, channel slice, file lines)`.  `cs.length + 1` fuel suffices for
any positive limit (`writeLoopAux_spec`). -/
def writeLoopAux (p : Params) (pardir : String) (limit : Nat)
    (cs : List String) :
    Nat → Nat → Except GenError (List (String × List String × List String))
  | 0, _ => .ok []
  | fuel + 1, i =>
    if i * limit < cs.length then
      match fileLines p ((cs.drop (i * limit)).take limit) with
      | .error e => .error e
      | .ok lines =>
        match writeLoopAux p pardir limit cs fuel (i + 1) with
        | .error e => .error e
        | .ok rest =>
          .ok ((pardir ++ "/parameters_" ++ Nat.repr i ++ ".txt",
                (cs.drop (i * limit)).take limit, lines) :: rest)
    else .ok []

/-- File-writing loop entry point.  With `limit = 0` and a nonempty channel
list the source loops forever; the model returns no files there (no claim
involves a zero limit). -/
def writeLoop (p : Params) (pardir : String) (limit : Nat) (cs : List String) :
    Except GenError (List (String × List String × List String)) :=
  if limit = 0 then .ok []
  else writeLoopAux p pardir limit cs (cs.length + 1) 0

/-- Embedding of `generate_parameters_files(config, section, cachefile,
rundir, channellimit, omicron_version, **kwargs)` (lines 53-168).  `g` is the
state of the module-level `DEFAULTS` group dicts, shared with `params` by the
shallow `DEFAULTS.copy()`; the returned `Params` is both the state those
globals are left in and the parameter set written to the files.  The version
comparison `omicron_version >= 'v2r2'` is lexicographic on the token
(`utils.OmicronVersion` is outside this module).  Directory creation is a
filesystem side effect with no bearing on the returned data. -/
def generate (g : Params) (config : Config) (cachefile rundir : String)
    (channellimit : Nat) (version : String)
    (kwargs : List (String × PValue)) :
    Except GenError (Params × List (String × List String × List String)) :=
  let pardir := rundir ++ "/parameters"
  let trigdir := rundir ++ "/triggers"
  match reformatRanges config with
  | .error e => .error e
  | .ok cfg =>
    match popKey cfg "channels" with
    | none => .error (.keyError "channels")
    | some (chanstr, cpparams0) =>
      let channellist := pySplitLines chanstr
      let cpparams := UNUSED_PARAMS.foldl dremove cpparams0
      let p1 : Params :=
        { g with DATA := dset g.DATA "FFL" (.str cachefile),
                 OUTPUT := dset g.OUTPUT "DIRECTORY" (.str trigdir) }
      let p3 := processParams
        (processParams p1 (cpparams.map (fun kv => (kv.1, PValue.str kv.2))))
        kwargs
      match restructure version p3.PARAMETER with
      | .error e => .error e
      | .ok par =>
        let p4 : Params := { p3 with PARAMETER := par }
        match writeLoop p4 pardir channellimit channellist with
        | .error e => .error e
        | .ok res => .ok (p4, res)

/-- The `DEFAULTS` state a successful Builder call leaves behind. -/
def resultState
    (r : Except GenError (Params × List (String × List String × List String))) :
    Option Params :=
  r.toOption.map Prod.fst

/-- The manifest/files a successful Builder call returns. -/
def resultFiles
    (r : Except GenError (Params × List (String × List String × List String))) :
    Option (List (String × List String × List String)) :=
  r.toOption.map Prod.snd

/-- C5 (code bug): a single Builder call mutates the compiled-in `DEFAULTS`
table — `DEFAULTS.copy()` is a shallow copy, so
`params['DATA']['FFL'] = cachefile` (line 121) writes into
`DEFAULTS['DATA']` itself; after the call the defaults differ from their
pristine state and carry the injected `FFL` value. -/
theorem defaults_table_mutated :
    resultState
        (generate DEFAULTS0 [("channels", "L1:X")] "c.lcf" "run" 10 "v2r1" [])
      ≠ some DEFAULTS0 ∧
    (resultState
        (generate DEFAULTS0 [("channels", "L1:X")] "c.lcf" "run" 10 "v2r1"
          [])).map (fun st => dlookup st.DATA "FFL")
      = some (some (.str "c.lcf")) := by
  decide

/-- C4 (code bug): Builder output depends on what earlier invocations did.
A first call with an `snr-threshold` keyword leaves `SNRTHRESHOLD` in the
shared PARAMETER defaults (shallow `DEFAULTS.copy()`); a second call with
identical inputs then emits different file contents than the same call made
from the pristine table. -/
theorem prior_call_changes_output :
    ((resultState
        (generate DEFAULTS0 [("channels", "L1:X")] "c.lcf" "run" 10 "v2r1"
          [("snr-threshold", PValue.str "8")])).bind
      (fun st1 =>
        resultFiles
          (generate st1 [("channels", "L1:X")] "c.lcf" "run" 10 "v2r1" [])))
      ≠ resultFiles
          (generate DEFAULTS0 [("channels", "L1:X")] "c.lcf" "run" 10 "v2r1"
            []) ∧
    ((resultState
        (generate DEFAULTS0 [("channels", "L1:X")] "c.lcf" "run" 10 "v2r1"
          [("snr-threshold", PValue.str "8")])).bind
      (fun st1 =>
        resultFiles
          (generate st1 [("channels", "L1:X")] "c.lcf" "run" 10 "v2r1" [])))
      ≠ none ∧
    resultFiles
        (generate DEFAULTS0 [("channels", "L1:X")] "c.lcf" "run" 10 "v2r1" [])
      ≠ none := by
  decide

/-- C8 (code bug): a list-valued parameter does not produce a space-joined
line — line 159 calls `' '.flatten(val, (list, tuple))`, but `str.flatten` takes
exactly one argument, so the write raises `TypeError` for every list/tuple
value. -/
theorem list_value_type_error :
    generate DEFAULTS0 [("channels", "L1:X")] "c.lcf" "run" 10 "v2r1"
      [("frequency-range", .list ["4", "64"])] = .error .typeError := by
  decide

/-- C7 (counterexample): with `flow` present but `fhigh` and
`frequency-range` absent, the Builder does not complete the reformat step
silently — `config.getfloat(section, 'fhigh')` is unguarded and raises
`NoOptionError` — refuting the claim that every missing low/high key is
ignored silently. -/
theorem flow_without_fhigh_raises :
    generate DEFAULTS0 [("channels", "L1:X"), ("flow", "10")] "c.lcf" "run"
      10 "v2r1" [] = .error (.noOption "fhigh") := by
  decide

/-- C7 (amended): if the combined range key is absent and BOTH the low and
high keys are present (parsing as floats), the Builder synthesizes the
combined key as `"<low> <high>"` and removes the low/high keys; when the LOW
key is absent the step completes silently with the combined key untouched.
(When the low key is present but the high key is absent, the step raises
`NoOptionError` instead — see the counterexample.)  The transform is stated
for an arbitrary `(range, low, high)` key triple, so it covers both
`frequency-range`/`flow`/`fhigh` and `q-range`/`qlow`/`qhigh`. -/
theorem reformatRange_amended :
    (∀ (cfg : Config) (rk lk hk vl vh : String) (ql qh : Dec),
      (cfg.map Prod.fst).Nodup → rk ≠ lk → rk ≠ hk → lk ≠ hk →
      dlookup cfg rk = none → dlookup cfg lk = some vl →
      dlookup cfg hk = some vh →
      pyParseFloat vl = some ql → pyParseFloat vh = some qh →
      ∃ out, reformatRange cfg rk lk hk = .ok out ∧
        dlookup out rk = some (pyFloatRepr ql ++ " " ++ pyFloatRepr qh) ∧
        dlookup out lk = none ∧ dlookup out hk = none) ∧
    (∀ (cfg : Config) (rk lk hk : String),
      dlookup cfg lk = none →
      ∃ out, reformatRange cfg rk lk hk = .ok out ∧
        dlookup out lk = none ∧
        (∀ k, k ≠ lk → k ≠ hk → dlookup out k = dlookup cfg k)) := by
  constructor
  · intro cfg rk lk hk vl vh ql qh hnd hne1 hne2 hne3 hr hl hh hpl hph
    have hcond : dlookup cfg rk = none ∧ dlookup cfg lk ≠ none := by
      exact ⟨hr, by simp [hl]⟩
    simp only [reformatRange]
    rw [if_pos hcond]
    simp only [getfloat, hl, hh, hpl, hph]
    refine ⟨_, rfl, ?_, ?_, ?_⟩
    · rw [dlookup_dremove_ne _ hne2, dlookup_dremove_ne _ hne1,
        dlookup_dset_self]
    · rw [dlookup_dremove_ne _ hne3]
      exact dlookup_dremove_self _ _ (nodup_dset _ _ _ hnd)
    · exact dlookup_dremove_self _ _ (nodup_dremove _ _ (nodup_dset _ _ _ hnd))
  · intro cfg rk lk hk hl
    have hcond : ¬ (dlookup cfg rk = none ∧ dlookup cfg lk ≠ none) := by
      simp [hl]
    simp only [reformatRange, if_neg hcond]
    refine ⟨_, rfl, ?_, ?_⟩
    · exact dlookup_dremove_of_none _ _ _ (dlookup_dremove_of_none _ _ _ hl)
    · intro k hkl hkh
      rw [dlookup_dremove_ne _ hkh, dlookup_dremove_ne _ hkl]

/-- C7 (witness for the amended theorem): `flow=10, fhigh=100` with no
combined key synthesizes `frequency-range = "10.0 100.0"` and removes both
bound keys. -/
theorem reformatRange_amended_witness :
    ∃ out, reformatRange [("flow", "10"), ("fhigh", "100")] "frequency-range"
        "flow" "fhigh" = .ok out ∧
      dlookup out "frequency-range" = some "10.0 100.0" ∧
      dlookup out "flow" = none ∧ dlookup out "fhigh" = none := by
  obtain ⟨out, h1, h2, h3, h4⟩ := reformatRange_amended.1
    [("flow", "10"), ("fhigh", "100")] "frequency-range" "flow" "fhigh"
    "10" "100" ⟨false, 10, 0⟩ ⟨false, 100, 0⟩ (by decide) (by decide)
    (by decide) (by decide) (by decide) (by decide) (by decide) (by decide)
    (by decide)
  exact ⟨out, h1, h2.trans (by decide), h3, h4⟩

/-- C3: for `version ≥ "v2r2"` (lexicographic) with the three duration keys
present, the restructured PARAMETER group drops them and instead holds
`PSDLENGTH` (the old CHUNKDURATION value), `TIMING = "<segment> <overlap>"`,
and `FFTPLAN` (the prior value if any, else `FFTW_ESTIMATE`); if any of the
three keys is absent the Builder fails with a `KeyError` naming a missing
key.  For `version < "v2r2"` the group is returned verbatim (no
PSDLENGTH/TIMING added). -/
theorem restructure_version_branch (version : String) (par : Group)
    (hnd : (par.map Prod.fst).Nodup) :
    (versionLt version "v2r2" = false →
      ((∀ cv sv ov : PValue,
        dlookup par "CHUNKDURATION" = some cv →
        dlookup par "SEGMENTDURATION" = some sv →
        dlookup par "OVERLAPDURATION" = some ov →
        ∃ out, restructure version par = .ok out ∧
          dlookup out "CHUNKDURATION" = none ∧
          dlookup out "SEGMENTDURATION" = none ∧
          dlookup out "OVERLAPDURATION" = none ∧
          dlookup out "PSDLENGTH" = some cv ∧
          dlookup out "TIMING" = some (.str (pyStr sv ++ " " ++ pyStr ov)) ∧
          dlookup out "FFTPLAN" =
            some ((dlookup par "FFTPLAN").getD (.str "FFTW_ESTIMATE"))) ∧
      ((dlookup par "CHUNKDURATION" = none ∨
        dlookup par "SEGMENTDURATION" = none ∨
        dlookup par "OVERLAPDURATION" = none) →
        ∃ k, restructure version par = .error (.keyError k) ∧
          dlookup par k = none))) ∧
    (versionLt version "v2r2" = true → restructure version par = .ok par) := by
  constructor
  · intro hv
    constructor
    · intro cv sv ov hc hs ho
      have e1 : dpop par "CHUNKDURATION"
          = some (cv, dremove par "CHUNKDURATION") := by rw [dpop, hc]
      have nd1 : ((dremove par "CHUNKDURATION").map Prod.fst).Nodup :=
        nodup_dremove _ _ hnd
      have nd2 : ((dset (dremove par "CHUNKDURATION") "PSDLENGTH" cv).map
          Prod.fst).Nodup := nodup_dset _ _ _ nd1
      have hs2 : dlookup (dset (dremove par "CHUNKDURATION") "PSDLENGTH" cv)
          "SEGMENTDURATION" = some sv := by
        rw [dlookup_dset_ne _ _ (by decide), dlookup_dremove_ne _ (by decide),
          hs]
      have e2 : dpop (dset (dremove par "CHUNKDURATION") "PSDLENGTH" cv)
          "SEGMENTDURATION"
          = some (sv, dremove (dset (dremove par "CHUNKDURATION") "PSDLENGTH"
              cv) "SEGMENTDURATION") := by rw [dpop, hs2]
      have nd3 : ((dremove (dset (dremove par "CHUNKDURATION") "PSDLENGTH" cv)
          "SEGMENTDURATION").map Prod.fst).Nodup := nodup_dremove _ _ nd2
      have ho2 : dlookup (dremove (dset (dremove par "CHUNKDURATION")
          "PSDLENGTH" cv) "SEGMENTDURATION") "OVERLAPDURATION" = some ov := by
        rw [dlookup_dremove_ne _ (by decide), dlookup_dset_ne _ _ (by decide),
          dlookup_dremove_ne _ (by decide), ho]
      have e3 : dpop (dremove (dset (dremove par "CHUNKDURATION") "PSDLENGTH"
          cv) "SEGMENTDURATION") "OVERLAPDURATION"
          = some (ov, dremove (dremove (dset (dremove par "CHUNKDURATION")
              "PSDLENGTH" cv) "SEGMENTDURATION") "OVERLAPDURATION") := by
        rw [dpop, ho2]
      simp only [restructure, hv, Bool.false_eq_true, if_false, e1, e2, e3]
      refine ⟨_, rfl, ?_, ?_, ?_, ?_, ?_, ?_⟩
      · rw [dlookup_dsetdefault_ne _ _ (by decide),
          dlookup_dset_ne _ _ (by decide), dlookup_dremove_ne _ (by decide),
          dlookup_dremove_ne _ (by decide), dlookup_dset_ne _ _ (by decide)]
        exact dlookup_dremove_self _ _ hnd
      · rw [dlookup_dsetdefault_ne _ _ (by decide),
          dlookup_dset_ne _ _ (by decide), dlookup_dremove_ne _ (by decide)]
        exact dlookup_dremove_self _ _ nd2
      · rw [dlookup_dsetdefault_ne _ _ (by decide),
          dlookup_dset_ne _ _ (by decide)]
        exact dlookup_dremove_self _ _ nd3
      · rw [dlookup_dsetdefault_ne _ _ (by decide),
          dlookup_dset_ne _ _ (by decide), dlookup_dremove_ne _ (by decide),
          dlookup_dremove_ne _ (by decide), dlookup_dset_self]
      · rw [dlookup_dsetdefault_ne _ _ (by decide), dlookup_dset_self]
      · rw [dlookup_dsetdefault_self]
        have hchain : dlookup (dset (dremove (dremove (dset (dremove par
            "CHUNKDURATION") "PSDLENGTH" cv) "SEGMENTDURATION")
            "OVERLAPDURATION") "TIMING" (PValue.str (pyStr sv ++ " " ++
            pyStr ov))) "FFTPLAN" = dlookup par "FFTPLAN" := by
          rw [dlookup_dset_ne _ _ (by decide),
            dlookup_dremove_ne _ (by decide), dlookup_dremove_ne _ (by decide),
            dlookup_dset_ne _ _ (by decide), dlookup_dremove_ne _ (by decide)]
        rw [hchain]
    · intro hmiss
      by_cases hc : dlookup par "CHUNKDURATION" = none
      · refine ⟨"CHUNKDURATION", ?_, hc⟩
        simp [restructure, hv, dpop, hc]
      · obtain ⟨cv, hcv⟩ := Option.ne_none_iff_exists'.mp hc
        have e1 : dpop par "CHUNKDURATION"
            = some (cv, dremove par "CHUNKDURATION") := by rw [dpop, hcv]
        by_cases hsg : dlookup par "SEGMENTDURATION" = none
        · refine ⟨"SEGMENTDURATION", ?_, hsg⟩
          have hs2 : dlookup (dset (dremove par "CHUNKDURATION") "PSDLENGTH"
              cv) "SEGMENTDURATION" = none := by
            rw [dlookup_dset_ne _ _ (by decide),
              dlookup_dremove_ne _ (by decide)]
            exact hsg
          have e2 : dpop (dset (dremove par "CHUNKDURATION") "PSDLENGTH" cv)
              "SEGMENTDURATION" = none := by rw [dpop, hs2]
          simp [restructure, hv, e1, e2]
        · obtain ⟨sv, hsv⟩ := Option.ne_none_iff_exists'.mp hsg
          have hov : dlookup par "OVERLAPDURATION" = none := by
            rcases hmiss with h | h | h
            · exact absurd h hc
            · exact absurd h hsg
            · exact h
          refine ⟨"OVERLAPDURATION", ?_, hov⟩
          have hs2 : dlookup (dset (dremove par "CHUNKDURATION") "PSDLENGTH"
              cv) "SEGMENTDURATION" = some sv := by
            rw [dlookup_dset_ne _ _ (by decide),
              dlookup_dremove_ne _ (by decide), hsv]
          have e2 : dpop (dset (dremove par "CHUNKDURATION") "PSDLENGTH" cv)
              "SEGMENTDURATION"
              = some (sv, dremove (dset (dremove par "CHUNKDURATION")
                  "PSDLENGTH" cv) "SEGMENTDURATION") := by rw [dpop, hs2]
          have ho2 : dlookup (dremove (dset (dremove par "CHUNKDURATION")
              "PSDLENGTH" cv) "SEGMENTDURATION") "OVERLAPDURATION"
              = none := by
            rw [dlookup_dremove_ne _ (by decide),
              dlookup_dset_ne _ _ (by decide),
              dlookup_dremove_ne _ (by decide)]
            exact hov
          have e3 : dpop (dremove (dset (dremove par "CHUNKDURATION")
              "PSDLENGTH" cv) "SEGMENTDURATION") "OVERLAPDURATION"
              = none := by rw [dpop, ho2]
          simp [restructure, hv, e1, e2, e3]
  · intro hv
    simp [restructure, hv]

/-- C3 (witness): a concrete `v2r2` restructuring with chunk 576, segment 64,
overlap 8. -/
theorem restructure_version_branch_witness :
    ∃ out, restructure "v2r2"
        [("CLUSTERING", PValue.str "TIME"),
         ("CHUNKDURATION", PValue.str "576"),
         ("SEGMENTDURATION", PValue.str "64"),
         ("OVERLAPDURATION", PValue.str "8")] = .ok out ∧
      dlookup out "CHUNKDURATION" = none ∧
      dlookup out "SEGMENTDURATION" = none ∧
      dlookup out "OVERLAPDURATION" = none ∧
      dlookup out "PSDLENGTH" = some (PValue.str "576") ∧
      dlookup out "TIMING" = some (PValue.str "64 8") ∧
      dlookup out "FFTPLAN" = some (PValue.str "FFTW_ESTIMATE") := by
  obtain ⟨out, h1, h2, h3, h4, h5, h6, h7⟩ :=
    ((restructure_version_branch "v2r2"
      [("CLUSTERING", PValue.str "TIME"),
       ("CHUNKDURATION", PValue.str "576"),
       ("SEGMENTDURATION", PValue.str "64"),
       ("OVERLAPDURATION", PValue.str "8")] (by decide)).1 (by decide)).1
      (PValue.str "576") (PValue.str "64") (PValue.str "8")
      (by decide) (by decide) (by decide)
  exact ⟨out, h1, h2, h3, h4, h5, h6.trans (by decide), h7.trans (by decide)⟩

theorem getGA_applyParam_self (p : Params) (k : String) (v : PValue)
    (hv : isSentinel v = false) :
    getGA (applyParam p k v) (targetOf k) = some v := by
  by_cases hk : k = "sample-frequency"
  · simp [applyParam, targetOf, getGA, getGroup, hk, dlookup_dset_self]
  · simp [applyParam, targetOf, getGA, getGroup, hk, hv, dlookup_dset_self]

theorem getGA_applyParam_ne (p : Params) (k kOther : String) (v : PValue)
    (h : targetOf kOther ≠ targetOf k) :
    getGA (applyParam p kOther v) (targetOf k) = getGA p (targetOf k) := by
  by_cases hk2 : kOther = "sample-frequency"
  · subst hk2
    by_cases hk : k = "sample-frequency"
    · subst hk
      exact absurd rfl h
    · simp [applyParam, targetOf, getGA, getGroup, hk]
  · by_cases hk : k = "sample-frequency"
    · subst hk
      by_cases hv : isSentinel v <;>
        simp [applyParam, targetOf, getGA, getGroup, hk2, hv]
    · have hne : okeyOf k ≠ okeyOf kOther := by
        intro he
        apply h
        simp [targetOf, hk, hk2, he]
      by_cases hv : isSentinel v
      · simp [applyParam, targetOf, getGA, getGroup, hk, hk2, hv,
          dlookup_dremove_ne _ hne]
      · simp [applyParam, targetOf, getGA, getGroup, hk, hk2, hv,
          dlookup_dset_ne _ _ hne]

theorem getGA_processParams_ne (k : String) :
    ∀ (ds : List (String × PValue)) (p : Params),
    (∀ kv ∈ ds, targetOf kv.1 ≠ targetOf k) →
    getGA (processParams p ds) (targetOf k) = getGA p (targetOf k) := by
  intro ds
  induction ds with
  | nil => intro p _; rfl
  | cons hd tl ih =>
    intro p hne
    show getGA (processParams (applyParam p hd.1 hd.2) tl) (targetOf k) = _
    rw [ih _ (fun kv hkv => hne kv (List.mem_cons_of_mem _ hkv)),
      getGA_applyParam_ne _ _ _ _ (hne hd (List.mem_cons_self _ _))]

/-- C9: overrides win — base keys are processed first and kwargs after, so
for a key present in both (with a non-sentinel override value and no other
override writing the same derived attribute) the final parameter set holds
the override's value at the derived group/attribute; concretely, a run with
`snr-threshold = 7` in the config and `snr-threshold = 9` in the kwargs emits
the `SNRTHRESHOLD 9` line and not the `SNRTHRESHOLD 7` line. -/
theorem override_wins :
    (∀ (p0 : Params) (base kwargs : List (String × PValue)) (key : String)
      (vo : PValue),
      (kwargs.map (fun kv => targetOf kv.1)).Nodup →
      (key, vo) ∈ kwargs → isSentinel vo = false →
      getGA (processParams (processParams p0 base) kwargs) (targetOf key)
        = some vo) ∧
    (resultFiles (generate DEFAULTS0
        [("channels", "L1:X"), ("snr-threshold", "7")] "c.lcf" "run" 10
        "v2r1" [("snr-threshold", PValue.str "9")])).map
      (fun fs => fs.map (fun f =>
        ((f.2.2).contains (paramLine "PARAMETER" "SNRTHRESHOLD" "9"),
         (f.2.2).contains (paramLine "PARAMETER" "SNRTHRESHOLD" "7"))))
      = some [(true, false)] := by
  constructor
  · intro p0 base kwargs key vo
    generalize processParams p0 base = p
    induction kwargs generalizing p with
    | nil => intro _ hmem _; exact absurd hmem (List.not_mem_nil _)
    | cons hd tl ih =>
      intro hnd hmem hv
      simp only [List.map_cons, List.nodup_cons] at hnd
      rcases List.mem_cons.mp hmem with heq | hmem2
      · show getGA (processParams (applyParam p hd.1 hd.2) tl) (targetOf key)
          = some vo
        have hkey : targetOf hd.1 = targetOf key := by rw [← heq]
        have hall : ∀ kv ∈ tl, targetOf kv.1 ≠ targetOf key := by
          intro kv hkv hcontra
          apply hnd.1
          rw [hkey, ← hcontra]
          exact List.mem_map_of_mem _ hkv
        rw [getGA_processParams_ne key tl _ hall, ← heq,
          getGA_applyParam_self _ _ _ hv]
      · show getGA (processParams (applyParam p hd.1 hd.2) tl) (targetOf key)
          = some vo
        exact ih (applyParam p hd.1 hd.2) hnd.2 hmem2 hv
  · decide

/-- C9 (witness): the override value lands at the derived attribute. -/
theorem override_wins_witness :
    getGA (processParams (processParams DEFAULTS0
        [("snr-threshold", PValue.str "7")])
        [("snr-threshold", PValue.str "9")]) (targetOf "snr-threshold")
      = some (PValue.str "9") :=
  override_wins.1 DEFAULTS0 [("snr-threshold", PValue.str "7")]
    [("snr-threshold", PValue.str "9")] "snr-threshold" (PValue.str "9")
    (by decide) (by decide) (by decide)

theorem reformatRange_preserves (cfg out : Config) (rk lk hk k : String)
    (h1 : k ≠ rk) (h2 : k ≠ lk) (h3 : k ≠ hk)
    (h : reformatRange cfg rk lk hk = .ok out) :
    dlookup out k = dlookup cfg k := by
  simp only [reformatRange] at h
  split at h
  · exact absurd h (by simp)
  · rename_i c1 heq
    obtain rfl := Except.ok.inj h
    split at heq
    · split at heq
      · exact absurd heq (by simp)
      · split at heq
        · exact absurd heq (by simp)
        · obtain rfl := Except.ok.inj heq
          rw [dlookup_dremove_ne _ h3, dlookup_dremove_ne _ h2,
            dlookup_dset_ne _ _ h1]
    · obtain rfl := Except.ok.inj heq
      rw [dlookup_dremove_ne _ h3, dlookup_dremove_ne _ h2]

theorem reformatRanges_channels (config cfg : Config)
    (h : reformatRanges config = .ok cfg) :
    dlookup cfg "channels" = dlookup config "channels" := by
  simp only [reformatRanges] at h
  split at h
  · exact absurd h (by simp)
  · rename_i c1 heq
    rw [reformatRange_preserves c1 cfg _ _ _ _ (by decide) (by decide)
        (by decide) h,
      reformatRange_preserves config c1 _ _ _ _ (by decide) (by decide)
        (by decide) heq]

theorem fileLines_of_allLines (p : Params) (gl : List String)
    (hgl : allLines p = .ok gl) (chs : List String) :
    fileLines p chs = .ok (gl ++ chs.map channelLine) := by
  rw [fileLines, hgl]

theorem splitChars_ne_nil (sep : Char) (l : List Char) :
    splitChars sep l ≠ [] := by
  cases l with
  | nil => simp [splitChars]
  | cons c t =>
    simp only [splitChars]
    cases h : splitChars sep t with
    | nil => simp
    | cons a b => split_ifs <;> simp

theorem pySplitLines_ne_nil (s : String) : pySplitLines s ≠ [] := by
  intro h
  exact splitChars_ne_nil _ _ (List.map_eq_nil_iff.mp h)

theorem writeLoopAux_spec (p : Params) (pardir : String) (L : Nat)
    (hL : 0 < L) (gl : List String) (hgl : allLines p = .ok gl)
    (cs : List String) :
    ∀ fuel i, cs.length - i * L < fuel →
    ∃ res, writeLoopAux p pardir L cs fuel i = .ok res ∧
      res.length = (cs.length - i * L + L - 1) / L ∧
      (res.map (fun r => r.2.1)).flatten = cs.drop (i * L) ∧
      (∀ r ∈ res, r.2.1.length ≤ L ∧ r.2.1 ≠ []) ∧
      (∀ j r, res.get? j = some r → j + 1 < res.length →
        r.2.1.length = L) := by
  intro fuel
  induction fuel with
  | zero => intro i h; omega
  | succ f ih =>
    intro i h
    by_cases hlt : i * L < cs.length
    · have hmul : (i + 1) * L = i * L + L := by ring
      obtain ⟨rest, hrest, hlen, hjoin, hsz, hidx⟩ := ih (i + 1) (by omega)
      refine ⟨(pardir ++ "/parameters_" ++ Nat.repr i ++ ".txt",
        (cs.drop (i * L)).take L,
        gl ++ ((cs.drop (i * L)).take L).map channelLine) :: rest,
        ?_, ?_, ?_, ?_, ?_⟩
      · simp only [writeLoopAux, if_pos hlt,
          fileLines_of_allLines p gl hgl, hrest]
      · simp only [List.length_cons, hlen, hmul]
        have h0 : 1 ≤ cs.length - i * L := by omega
        have hrhs : cs.length - i * L + L - 1 = (cs.length - i * L - 1) + L := by
          omega
        rw [hrhs, Nat.add_div_right _ hL]
        rcases le_or_lt L (cs.length - i * L) with hca | hca
        · have e1 : cs.length - (i * L + L) + L - 1 = cs.length - i * L - 1 := by
            omega
          rw [e1]
        · have e1 : cs.length - (i * L + L) + L - 1 = L - 1 := by omega
          rw [e1, Nat.div_eq_of_lt (by omega : L - 1 < L),
            Nat.div_eq_of_lt (by omega : cs.length - i * L - 1 < L)]
      · simp only [List.map_cons, List.flatten_cons]
        rw [hjoin, hmul, ← List.drop_drop, List.take_append_drop]
      · intro r hr
        rcases List.mem_cons.mp hr with heq | hr2
        · subst heq
          constructor
          · rw [List.length_take]
            exact Nat.min_le_left _ _
          · intro hnil
            have hlen0 := congrArg List.length hnil
            rw [List.length_take, List.length_drop, List.length_nil] at hlen0
            rw [Nat.min_eq_zero_iff] at hlen0
            omega
        · exact hsz r hr2
      · intro j r hget hjlt
        cases j with
        | zero =>
          rw [List.get?_cons_zero] at hget
          obtain rfl := Option.some.inj hget
          simp only [List.length_cons] at hjlt
          have hrest1 : 1 ≤ rest.length := by omega
          rw [hlen, Nat.one_le_div_iff hL] at hrest1
          have hLm : L ≤ cs.length - i * L := by omega
          rw [List.length_take, List.length_drop]
          exact Nat.min_eq_left hLm
        | succ j2 =>
          rw [List.get?_cons_succ] at hget
          simp only [List.length_cons] at hjlt
          exact hidx j2 r hget (by omega)
    · refine ⟨[], ?_, ?_, ?_, ?_, ?_⟩
      · simp only [writeLoopAux, if_neg hlt]
      · simp only [List.length_nil]
        have e : cs.length - i * L = 0 := by omega
        rw [e, Nat.zero_add, Nat.div_eq_of_lt (by omega : L - 1 < L)]
      · simp only [List.map_nil, List.flatten_nil]
        exact (List.drop_eq_nil_of_le (by omega)).symm
      · intro r hr
        exact absurd hr (List.not_mem_nil r)
      · intro j r hget hjlt
        simp at hjlt

theorem writeLoop_spec (p : Params) (pardir : String) (L : Nat) (hL : 0 < L)
    (gl : List String) (hgl : allLines p = .ok gl) (cs : List String) :
    ∃ res, writeLoop p pardir L cs = .ok res ∧
      res.length = (cs.length + L - 1) / L ∧
      (res.map (fun r => r.2.1)).flatten = cs ∧
      (∀ r ∈ res, r.2.1.length ≤ L ∧ r.2.1 ≠ []) ∧
      (∀ j r, res.get? j = some r → j + 1 < res.length →
        r.2.1.length = L) := by
  obtain ⟨res, h1, h2, h3, h4, h5⟩ := writeLoopAux_spec p pardir L hL gl hgl
    cs (cs.length + 1) 0 (by simp)
  refine ⟨res, ?_, ?_, ?_, h4, h5⟩
  · rw [writeLoop, if_neg (by omega : ¬ L = 0)]
    exact h1
  · simpa using h2
  · simpa using h3

theorem writeLoop_ok_allLines (p : Params) (pardir : String) (L : Nat)
    (cs : List String) (r : List (String × List String × List String))
    (h : writeLoop p pardir L cs = .ok r) (hL : 0 < L) (hne : cs ≠ []) :
    ∃ gl, allLines p = .ok gl := by
  cases hal : allLines p with
  | ok gl => exact ⟨gl, rfl⟩
  | error e =>
    exfalso
    rw [writeLoop, if_neg (by omega : ¬ L = 0)] at h
    simp only [writeLoopAux] at h
    rw [if_pos (by simpa using List.length_pos.mpr hne : 0 * L < cs.length)]
      at h
    have hfl : fileLines p ((cs.drop (0 * L)).take L) = .error e := by
      rw [fileLines, hal]
    rw [hfl] at h
    simp at h

/-- C1: a successful Builder run with channel limit `L > 0` returns
`ceil(N/L)` (file, channel subset, file lines) entries whose channel subsets
are consecutive chunks of the split channel list — their concatenation in
order is exactly the channel list (so no position lands in two subsets), all
chunks are nonempty of size at most `L`, every chunk but the last has size
exactly `L` — and the file-writing loop on an empty channel list produces
zero files. -/
theorem builder_chunking (g : Params) (config : Config)
    (cachefile rundir : String) (L : Nat) (version : String)
    (kwargs : List (String × PValue)) (st : Params)
    (res : List (String × List String × List String)) (chanstr : String)
    (hL : 0 < L) (hch : dlookup config "channels" = some chanstr)
    (hgen : generate g config cachefile rundir L version kwargs
      = .ok (st, res)) :
    res.length = ((pySplitLines chanstr).length + L - 1) / L ∧
    (res.map (fun r => r.2.1)).flatten = pySplitLines chanstr ∧
    (∀ r ∈ res, r.2.1.length ≤ L ∧ r.2.1 ≠ []) ∧
    (∀ j r, res.get? j = some r → j + 1 < res.length → r.2.1.length = L) ∧
    (∀ (q : Params) (pd : String), writeLoop q pd L [] = .ok []) := by
  have hempty : ∀ (q : Params) (pd : String), writeLoop q pd L [] = .ok [] := by
    intro q pd
    rw [writeLoop, if_neg (by omega : ¬ L = 0)]
    simp [writeLoopAux]
  simp only [generate] at hgen
  split at hgen
  · exact absurd hgen (by simp)
  rename_i cfg h1
  split at hgen
  · exact absurd hgen (by simp)
  rename_i chanstr2 cp0 hpop2
  have hch2 : dlookup cfg "channels" = some chanstr := by
    rw [reformatRanges_channels config cfg h1]
    exact hch
  rw [popKey, hch2] at hpop2
  simp only [Option.some.injEq, Prod.mk.injEq] at hpop2
  obtain ⟨rfl, rfl⟩ := hpop2
  split at hgen
  · exact absurd hgen (by simp)
  rename_i par hres
  split at hgen
  · exact absurd hgen (by simp)
  rename_i wres hwl
  simp only [Except.ok.injEq, Prod.mk.injEq] at hgen
  obtain ⟨hst, hres2⟩ := hgen
  subst hres2
  obtain ⟨gl, hal⟩ := writeLoop_ok_allLines _ _ _ _ _ hwl hL
    (pySplitLines_ne_nil chanstr)
  obtain ⟨res2, hr1, hr2, hr3, hr4, hr5⟩ := writeLoop_spec _ _ _ hL gl hal
    (pySplitLines chanstr)
  rw [hwl] at hr1
  obtain rfl := Except.ok.inj hr1
  exact ⟨hr2, hr3, hr4, hr5, hempty⟩

theorem except_toOption_ok {ε α : Type} (e : Except ε α) (x : α)
    (h : e.toOption = some x) : e = .ok x := by
  cases e with
  | error a => simp [Except.toOption] at h
  | ok a =>
    simp only [Except.toOption, Option.some.injEq] at h
    rw [h]

/-- C1 (witness): channels `A, B, C` with limit 2 give two files holding
`[A, B]` and `[C]`. -/
theorem builder_chunking_witness :
    ∃ st res, generate DEFAULTS0 [("channels", "A\nB\nC")] "c.lcf" "run" 2
        "v2r1" [] = .ok (st, res) ∧
      res.length = 2 ∧ (res.map (fun r => r.2.1)).flatten = ["A", "B", "C"] := by
  have h0 : (generate DEFAULTS0 [("channels", "A\nB\nC")] "c.lcf" "run" 2
      "v2r1" []).toOption.isSome = true := by decide
  obtain ⟨pr, hpr⟩ := Option.isSome_iff_exists.mp h0
  have hgen : generate DEFAULTS0 [("channels", "A\nB\nC")] "c.lcf" "run" 2
      "v2r1" [] = .ok (pr.1, pr.2) := by
    have := except_toOption_ok _ _ hpr
    simpa using this
  have happ := builder_chunking DEFAULTS0 [("channels", "A\nB\nC")] "c.lcf"
    "run" 2 "v2r1" [] pr.1 pr.2 "A\nB\nC" (by decide) (by decide) hgen
  exact ⟨pr.1, pr.2, hgen, happ.1.trans (by decide),
    happ.2.1.trans (by decide)⟩

end PyOmicron
